import Mathlib

/-
Verification development for the Music-URL-downloader repository.

The Python sources are shallowly embedded as executable Lean definitions:
  * manifest lines are lists of characters, and the Python string methods
    used by the batch processors (`strip`, `split('#')[0]`, `startswith`,
    substring `in`) are implemented over `List Char`;
  * subprocess interactions are abstracted as explicit outcome values
    (one constructor per exceptional path the Python code distinguishes);
  * the rate-limiter state is a single rational timestamp, with wall-clock
    times passed explicitly.
Each definition is translated from the corresponding function in
src/spotify_url_downloader.py, src/youtube_url_downloader.py or
src/interactive_downloader_2.py; the file/line of the source is recorded
in the doc comments.
-/

/-! Python-style character/string primitives -/

/-- Python whitespace characters as used by `str.strip()`. -/
def pyWS (c : Char) : Bool :=
  c = ' ' || c = '\t' || c = '\n' || c = '\r' || c = '\x0b' || c = '\x0c'

/-- Python `s.lstrip()` over a character list. -/
def lstripChars (l : List Char) : List Char := l.dropWhile pyWS

/-- Python `s.rstrip()` over a character list. -/
def rstripChars (l : List Char) : List Char := (l.reverse.dropWhile pyWS).reverse

/-- Python `s.strip()` over a character list. -/
def pstrip (l : List Char) : List Char := rstripChars (lstripChars l)

/-- Python `s.strip()` on `String`. -/
def pyStripStr (s : String) : String := String.mk (pstrip s.toList)

/-- Python `line.split('#')[0]`: the characters strictly before the first `'#'`. -/
def beforeHash (l : List Char) : List Char := l.takeWhile (fun c => c != '#')

/-- Python `line.split('#')[0].strip()`, the clean target of a manifest line
(spotify_url_downloader.py:1437, youtube_url_downloader.py:1246). -/
def cleanTarget (l : List Char) : List Char := pstrip (beforeHash l)

/-- Python substring test `pat in l` over character lists. -/
def pySubstr (pat l : List Char) : Bool := decide (pat <:+: l)

/-- Python substring test `pat in s` on `String`. -/
def pyInStr (pat s : String) : Bool := pySubstr pat.toList s.toList

/-- Python truthiness of a string: nonempty strings are truthy. -/
def pyTruthy (s : String) : Bool := s != ""

/-- Python `s.lower()`. -/
def pyLower (s : String) : String := s.toLower

/-- Python `s.title()` restricted to a single lowercase word, as applied to
the literal metadata types `"playlist"` and `"album"`. -/
def pyTitle (s : String) : String :=
  match s.toList with
  | [] => ""
  | c :: cs => String.mk (c.toUpper :: cs)

/-- Python `str(value)` for an optional string field (`None` prints as "None"). -/
def pyStrOfOpt (o : Option String) : String :=
  match o with
  | some s => s
  | none => "None"

/-- Python falsiness of `metadata.get(key)` for a string-valued key:
missing keys and empty strings are falsy. -/
def pyFalsyStrOpt (o : Option String) : Bool :=
  match o with
  | none => true
  | some s => s == ""

/-! Manifest markers (spotify_url_downloader.py:1435,1552; youtube_url_downloader.py:1247,1292) -/

/-- The completion marker text searched for with Python `in`. -/
def markerChars : List Char := "# DOWNLOADED".toList

/-- The text appended to a successfully downloaded line. -/
def downloadedSuffix : List Char := " # DOWNLOADED".toList

/-- The text appended to a failed line. -/
def failedSuffix : List Char := " # FAILED".toList

/-- Python `"# DOWNLOADED" in line` (spotify_url_downloader.py:1435). -/
def hasDownloadedMarker (l : List Char) : Bool := pySubstr markerChars l

/-- Rewrite of a successfully downloaded manifest line
(spotify_url_downloader.py:1548-1554, youtube_url_downloader.py:1290-1294):
if the line holds a `#` comment, keep only `parts[0].strip()` and append
`" # DOWNLOADED"`, otherwise append the marker to the clean url. -/
def markLine (cleanUrl l : List Char) : List Char :=
  if pySubstr ['#'] l then cleanTarget l ++ downloadedSuffix
  else cleanUrl ++ downloadedSuffix

/-- Rewrite of a failed manifest line (spotify_url_downloader.py:1560-1566,
youtube_url_downloader.py:1298-1302). -/
def markFailedLine (cleanUrl l : List Char) : List Char :=
  if pySubstr ['#'] l then cleanTarget l ++ failedSuffix
  else cleanUrl ++ failedSuffix

/-- Work-list extraction (spotify_url_downloader.py:1433-1439): keep lines
without the `# DOWNLOADED` marker, strip trailing comments, drop empties. -/
def urlsToProcess (fileLines : List (List Char)) : List (List Char) :=
  fileLines.filterMap (fun l =>
    if hasDownloadedMarker l then none
    else
      if cleanTarget l = [] then none else some (cleanTarget l))

/-! Result values of spotify run_download (spotify_url_downloader.py:1071-1096):
it returns a CompletedProcess only on exit code 0, a CalledProcessError
object (not raised) on nonzero exit, and None on timeout or any other
exception; it never raises. -/

/-- Value returned by one spotify `run_download` call. -/
inductive SpotRunResult where
  | completed (stdout : String)
  | processError (returncode : Int) (stdout stderr : String)
  | noResult
deriving DecidableEq

/-- The success test used by every spotify retry loop:
`isinstance(result, subprocess.CompletedProcess) and result.returncode == 0`
(spotify_url_downloader.py:1192,1534). -/
def spotSuccess : SpotRunResult → Bool
  | .completed _ => true
  | _ => false

/-- Retry loop result: `(success, attempts made)` for a per-url attempt
sequence `res` and a fuel of remaining attempts
(spotify_url_downloader.py:1528-1541 with run_download never raising). -/
def loopRun (res : Nat → SpotRunResult) : Nat → Nat → Bool × Nat
  | 0, made => (false, made)
  | fuel + 1, made =>
    if spotSuccess (res made) then (true, made + 1)
    else loopRun res fuel (made + 1)

/-- One line of the youtube batch processor
(youtube_url_downloader.py:1243-1302): skip marked lines, otherwise
validate (one external call), then retry-loop the download and rewrite the
line in place by its index; returns (invocations, new line). -/
def ytProcessLine (validator : List Char → Bool × List Char)
    (ok : List Char → Nat → SpotRunResult) (maxR : Nat) (l : List Char) :
    Nat × List Char :=
  if pySubstr markerChars l then (0, l)
  else
    if (validator (cleanTarget l)).1 = false then
      (1, cleanTarget l ++ " # VALIDATION_FAILED: ".toList ++
        (validator (cleanTarget l)).2)
    else
      if (loopRun (ok (cleanTarget l)) maxR 0).1 then
        (1 + (loopRun (ok (cleanTarget l)) maxR 0).2, markLine (cleanTarget l) l)
      else
        (1 + (loopRun (ok (cleanTarget l)) maxR 0).2, markFailedLine (cleanTarget l) l)

/-- The youtube batch processor core (youtube_url_downloader.py:1243-1305):
lines are processed and rewritten index by index. -/
def ytProcessBatch (validator : List Char → Bool × List Char)
    (ok : List Char → Nat → SpotRunResult) (maxR : Nat)
    (fileLines : List (List Char)) : Nat × List (List Char) :=
  ((fileLines.map (fun l => (ytProcessLine validator ok maxR l).1)).sum,
   fileLines.map (fun l => (ytProcessLine validator ok maxR l).2))

/-! Retry-loop event traces for the delay-placement property -/

/-- Observable events of a retry loop: a numbered attempt, or a sleep of a
given number of seconds. -/
inductive RunEv where
  | attempt (i : Nat)
  | sleep (seconds : Nat)
deriving DecidableEq

/-- Batch-item retry loop of spotify download_from_file
(spotify_url_downloader.py:1528-1541): run the attempt, break on success,
otherwise sleep `d` only when `attempt < MAX_RETRIES`. -/
def dffLoopGo (res : Nat → SpotRunResult) (maxR d : Nat) :
    Nat → Nat → List RunEv
  | 0, _ => []
  | fuel + 1, a =>
    RunEv.attempt a ::
      (if spotSuccess (res a) then []
       else if a < maxR then RunEv.sleep d :: dffLoopGo res maxR d fuel (a + 1)
       else [])

/-- Full trace of the download_from_file retry loop, attempts numbered from 1. -/
def dffLoopTrace (res : Nat → SpotRunResult) (maxR d : Nat) : List RunEv :=
  dffLoopGo res maxR d maxR 1

/-- Retry loop of spotify download_track
(spotify_url_downloader.py:1182-1209): sleep `d` before every attempt
after the first, then run the attempt. -/
def trackLoopGo (res : Nat → SpotRunResult) (d : Nat) :
    Nat → Nat → List RunEv
  | 0, _ => []
  | fuel + 1, a =>
    (if 1 < a then [RunEv.sleep d] else []) ++
      RunEv.attempt a ::
        (if spotSuccess (res a) then [] else trackLoopGo res d fuel (a + 1))

/-- Full trace of the download_track retry loop, attempts numbered from 1. -/
def trackLoopTrace (res : Nat → SpotRunResult) (maxR d : Nat) : List RunEv :=
  trackLoopGo res d maxR 1

/-- The expected alternating tail: sleep, attempt a, sleep, attempt a+1, ... -/
def altTail (d : Nat) : Nat → Nat → List RunEv
  | 0, _ => []
  | r + 1, a => RunEv.sleep d :: RunEv.attempt a :: altTail d r (a + 1)

/-- The expected all-failure trace: attempt 1, then an alternating tail of
`maxR - 1` sleep/attempt pairs. -/
def altTrace (maxR d : Nat) : List RunEv :=
  match maxR with
  | 0 => []
  | n + 1 => RunEv.attempt 1 :: altTail d n 2

/-- Test for an attempt event. -/
def isAttemptEv : RunEv → Bool
  | .attempt _ => true
  | .sleep _ => false

/-- Test for a sleep event. -/
def isSleepEv : RunEv → Bool
  | .sleep _ => true
  | .attempt _ => false

/-- Number of attempts in a trace. -/
def countAttempts (t : List RunEv) : Nat := t.countP isAttemptEv

/-- Number of sleeps in a trace. -/
def countSleeps (t : List RunEv) : Nat := t.countP isSleepEv

/-- Last event of a trace, if any. -/
def lastEv : List RunEv → Option RunEv
  | [] => none
  | [e] => some e
  | _ :: e2 :: rest => lastEv (e2 :: rest)

/-! Rate limiter (spotify_url_downloader.py:1098-1119,
youtube_url_downloader.py:1006-1025).  Shared state is the single
timestamp `last_called[0]`; wall-clock instants are rationals passed in. -/

/-- State of the rate_limit decorator: the `last_called[0]` cell. -/
structure RLState where
  lastCalled : ℚ
deriving DecidableEq

/-- Minimum spacing `60.0 / calls_per_minute` between invocations. -/
def rlSpacing (cpm : ℚ) : ℚ := 60 / cpm

/-- `wait_time = (60.0 / calls_per_minute) - elapsed_time` computed by the
wrapper at wall-clock instant `t`. -/
def rlWaitTime (cpm : ℚ) (s : RLState) (t : ℚ) : ℚ :=
  rlSpacing cpm - (t - s.lastCalled)

/-- Instant at which the protected call starts: the wrapper sleeps exactly
`wait_time` when it is positive. -/
def rlProceedTime (cpm : ℚ) (s : RLState) (t : ℚ) : ℚ :=
  if 0 < rlWaitTime cpm s t then t + rlWaitTime cpm s t else t

/-- Sleep duration actually performed by an acquire at instant `t`. -/
def rlSleepApplied (cpm : ℚ) (s : RLState) (t : ℚ) : ℚ :=
  if 0 < rlWaitTime cpm s t then rlWaitTime cpm s t else 0

/-- One wrapped invocation arriving at instant `t` whose protected call
lasts `dur`: after the optional sleep the wrapper stamps
`last_called[0] = time.time()`; if the protected call raises, the handler
overwrites it with `time.time() - (60.0 / calls_per_minute)`
(spotify_url_downloader.py:1105-1117, youtube_url_downloader.py:1012-1023). -/
def rlInvoke (cpm : ℚ) (s : RLState) (t dur : ℚ) (raises : Bool) : RLState :=
  if raises then ⟨rlProceedTime cpm s t + dur - rlSpacing cpm⟩
  else ⟨rlProceedTime cpm s t⟩

/-! Interactive downloader (interactive_downloader_2.py) -/

/-- Raw behaviour of the `subprocess.run(..., check=True)` call inside
`run_download` (interactive_downloader_2.py:259-266): normal completion
(exit 0), a CalledProcessError for a nonzero exit, a TimeoutExpired, or
any other exception. -/
inductive RawEvent where
  | ok (stdout : String)
  | calledProcessError (stdout stderr : String)
  | timeoutExpired
  | otherExn (msg : String)
deriving DecidableEq

/-- Value produced by `run_download`
(interactive_downloader_2.py:237-305): an object carrying a returncode
(CompletedProcess or the synthesized `type('obj', ...)` fake), a returned
exception value (which has no returncode attribute), or a re-raised
exception. -/
inductive RDResult where
  | obj (returncode : Int) (stdout stderr : String)
  | exnValue (msg : String)
  | raised (stdout stderr : String)
deriving DecidableEq

/-- Translation of `run_download` (interactive_downloader_2.py:237-305).
The first error branch is Python
`if "This video is unavailable" or "Privae video" in stderr:` which
evaluates the literal string's truthiness disjoined with the membership
test, so the condition is `pyTruthy "This video is unavailable" || ...`. -/
def idl_run_download (ev : RawEvent) : RDResult :=
  match ev with
  | .ok out => .obj 0 out ""
  | .calledProcessError out err =>
    if pyTruthy "This video is unavailable" || pyInStr "Privae video" err then
      .obj 404 out err
    else if pyInStr "Sign in to confirm your age" err then
      .obj 402 out err
    else
      .raised out err
  | .timeoutExpired => .obj 400 "" "Download timeout"
  | .otherExn m => .exnValue m

/-- Observable outcome of `download_single`: the returned boolean, the
number of attempts made, and the number of retry sleeps performed. -/
structure DSResult where
  returned : Bool
  attempts : Nat
  sleeps : Nat
deriving DecidableEq

/-- The attempt loop of `download_single`
(interactive_downloader_2.py:331-357): `made` is the 0-based `attempt`
index, `fuel` the remaining iterations of `range(self.__max_retries)`. -/
def idl_download_single_go (ev : Nat → RawEvent) (maxR : Nat) :
    Nat → Nat → Nat → DSResult
  | 0, made, slept => ⟨false, made, slept⟩
  | fuel + 1, made, slept =>
    match idl_run_download (ev made) with
    | .obj rc _ _ =>
      if rc = 0 then ⟨true, made + 1, slept⟩
      else if rc ∈ ([404, 403, 408] : List Int) then ⟨false, made + 1, slept⟩
      else ⟨true, made + 1, slept⟩
    | .exnValue _ => ⟨true, made + 1, slept⟩
    | .raised _ _ =>
      if made < maxR - 1 then idl_download_single_go ev maxR fuel (made + 1) (slept + 1)
      else ⟨false, made + 1, slept⟩

/-- `download_single` (interactive_downloader_2.py:325-357): URL validation
then the retry loop.  Results without a returncode attribute fall through
to the `# If we get here, it was successful` branch. -/
def idl_download_single (maxR : Nat) (urlValid : Bool) (ev : Nat → RawEvent) :
    DSResult :=
  if urlValid then idl_download_single_go ev maxR maxR 0 0
  else ⟨false, 0, 0⟩

/-- The classifications `run_download` itself documents as non-retryable:
the synthesized objects with returncode 404 (video unavailable) and 402
(age restriction) (interactive_downloader_2.py:276-290). -/
def idl_nonretryable (r : RDResult) : Prop :=
  ∃ out err, r = RDResult.obj 404 out err ∨ r = RDResult.obj 402 out err

/-! Spotify URL validation (spotify_url_downloader.py:782-804) -/

/-- A Python value as returned by `validate_spotify_url`: a bare boolean or
a pair (the annotated `Tuple[bool, str]`). -/
inductive PyVal where
  | pybool (b : Bool)
  | pypair (x y : PyVal)
deriving DecidableEq

/-- The pattern table of `validate_spotify_url`
(spotify_url_downloader.py:785-794). -/
def spotify_url_patterns : List (String × String) :=
  [("^https://open\\.spotify\\.com/track/[A-Za-z0-9]+", "track"),
   ("^https://open\\.spotify\\.com/album/[A-Za-z0-9]+", "album"),
   ("^https://open\\.spotify\\.com/playlist/[A-Za-z0-9]+", "playlist"),
   ("^https://open\\.spotify\\.com/artist/[A-Za-z0-9]+", "artist"),
   ("^spotify:track:[A-Za-z0-9]+$", "track"),
   ("^spotify:album:[A-Za-z0-9]+$", "album"),
   ("^spotify:playlist:[A-Za-z0-9]+$", "playlist"),
   ("^spotify:artist:[A-Za-z0-9]+$", "artist")]

/-- The TypeError message of the `re` library when the first argument to
`re.match` is neither a string nor a compiled pattern. -/
def reMatchTypeError : String :=
  "TypeError: first argument must be string or compiled pattern"

/-- A first argument handed to `re.match`: either a plain regex string or
a whole (pattern, type) tuple, which is what the source passes
(spotify_url_downloader.py:797, `re.match(pattern, url, re.IGNORECASE)`
with `pattern` being the tuple from the list at 785-794). -/
inductive ReArg where
  | ofString (s : String)
  | ofPair (pattern rtype : String)
deriving DecidableEq

/-- The `re.match` library call: a string first argument is matched via the
`rematch` oracle; a tuple first argument raises a TypeError. -/
def pyReMatch (rematch : String → String → Bool) :
    ReArg → String → Except String Bool
  | .ofString p, url => .ok (rematch p url)
  | .ofPair _ _, _ => .error reMatchTypeError

/-- Pattern loop of `validate_spotify_url`
(spotify_url_downloader.py:796-804): `for pattern in spotify_patterns:`
iterates over the (regex, type) TUPLES and line 797 passes the whole tuple
to `re.match`; the `try` only wraps the urlparse call inside the if, so
the TypeError raised by `re.match` propagates out of the function.  On the
paths that would run, a match with an accepted scheme executes
`return True` and everything else falls through to `return False`; no
branch returns a pair. -/
def vsuLoop (rematch : String → String → Bool) (schemeOk : String → Bool)
    (url : String) : List (String × String) → Except String PyVal
  | [] => .ok (.pybool false)
  | pattern :: rest =>
    match pyReMatch rematch (ReArg.ofPair pattern.1 pattern.2) url with
    | .error e => .error e
    | .ok true =>
      if schemeOk url then .ok (.pybool true)
      else vsuLoop rematch schemeOk url rest
    | .ok false => vsuLoop rematch schemeOk url rest

/-- `validate_spotify_url` (spotify_url_downloader.py:782-804): the result
is an exception or the value the function would return. -/
def spot_validate_spotify_url (rematch : String → String → Bool)
    (schemeOk : String → Bool) (url : String) : Except String PyVal :=
  vsuLoop rematch schemeOk url spotify_url_patterns

/-- Python tuple unpacking `a, b = v`: a bare boolean is not iterable and
raises a TypeError. -/
def pyUnpack2 : PyVal → Except String (PyVal × PyVal)
  | .pypair a b => .ok (a, b)
  | .pybool _ => .error "TypeError: cannot unpack non-iterable bool object"

/-- The unpacking call sites
`is_valid, resource_type = self.validate_spotify_url(url)`
(spotify_url_downloader.py:1140 in download_track and 1516 in
download_from_file): an exception from the callee propagates before any
unpacking; a returned value would then be unpacked. -/
def spot_download_track_validate (rematch : String → String → Bool)
    (schemeOk : String → Bool) (url : String) : Except String (PyVal × PyVal) :=
  match spot_validate_spotify_url rematch schemeOk url with
  | .error e => .error e
  | .ok v => pyUnpack2 v

/-! Spotify resource validator (spotify_url_downloader.py:835-928) -/

/-- One element of `metadata.get('tracks', [])`. -/
structure TrackMeta where
  availableFlag : Option Bool
  trackName : Option String
deriving DecidableEq

/-- The metadata dictionary fields `validate_resource` reads. -/
structure SpotMeta where
  nameField : Option String
  titleField : Option String
  durationField : Option Int
  typeField : Option String
  tracksField : Option (List TrackMeta)
deriving DecidableEq

/-- Behaviour of the `subprocess.run(["spotdl", ...])` call inside
`validate_resource` (spotify_url_downloader.py:847-851): completion with
an exit code and captured streams, or one of the exception paths the
function handles. -/
inductive ValEvent where
  | completed (returncode : Int) (stdout stderr : String)
  | timeoutExpired
  | fileNotFound
  | otherExn (msg : String)
deriving DecidableEq

/-- Collection checks of `validate_resource`
(spotify_url_downloader.py:868-893): playlist/album track counting, else
the single-track success. -/
def spot_validate_typecheck (metadata : SpotMeta) :
    Bool × String × Option SpotMeta :=
  if metadata.typeField == some "playlist" || metadata.typeField == some "album" then
    if metadata.tracksField.getD [] = [] then
      (false, "No tracks found in " ++ pyStrOfOpt metadata.typeField, some metadata)
    else
      if (metadata.tracksField.getD []).countP (fun tr => tr.availableFlag.getD true) = 0 then
        (false, "No available tracks in " ++ pyStrOfOpt metadata.typeField, some metadata)
      else
        (true,
         pyTitle (pyStrOfOpt metadata.typeField) ++ " available with " ++
           toString ((metadata.tracksField.getD []).countP (fun tr => tr.availableFlag.getD true)) ++
           "/" ++ toString (metadata.tracksField.getD []).length ++ " tracks",
         some metadata)
  else (true, "Track available", some metadata)

/-- Metadata checks of `validate_resource`
(spotify_url_downloader.py:857-893): missing title, non-positive duration,
then the collection checks. -/
def spot_validate_meta (metadata : SpotMeta) : Bool × String × Option SpotMeta :=
  if pyFalsyStrOpt metadata.nameField && pyFalsyStrOpt metadata.titleField then
    (false, "Invalid metadata - no title found", some metadata)
  else
    match metadata.durationField with
    | some d =>
      if d ≤ 0 then (false, "Invalid duration", some metadata)
      else spot_validate_typecheck metadata
    | none => spot_validate_typecheck metadata

/-- `validate_resource` (spotify_url_downloader.py:835-928).  `parseJson`
abstracts `json.loads` (none = JSONDecodeError) and `jsonErrText` is the
`str(e)` of that error.  Every exception path returns an unavailable
triple; nothing propagates. -/
def spot_validate_resource (url : String) (parseJson : String → Option SpotMeta)
    (jsonErrText : String) (ev : ValEvent) : Bool × String × Option SpotMeta :=
  match ev with
  | .completed rc out err =>
    if rc == 0 && pyStripStr out != "" then
      match parseJson (pyStripStr out) with
      | some metadata => spot_validate_meta metadata
      | none =>
        if pyInStr "not found" (if err != "" then pyLower err else jsonErrText) then
          (false, "Resource not found on Spotify", none)
        else if pyInStr "private" (if err != "" then pyLower err else jsonErrText) then
          (false, "Private resource - requires authentication", none)
        else if pyInStr "unavailable" (if err != "" then pyLower err else jsonErrText) then
          (false, "Resource unavailable in your region", none)
        else
          (false, "Invalid response: " ++
            (if err != "" then pyLower err else jsonErrText).take 100, none)
    else
      if pyInStr "not found" (if err != "" then pyLower err else "Unknown error") then
        (false, "Resource not found", none)
      else if pyInStr "private" (if err != "" then pyLower err else "Unknown error") ||
          pyInStr "access" (if err != "" then pyLower err else "Unknown error") then
        (false, "Private or restricted access", none)
      else if pyInStr "unavailable" (if err != "" then pyLower err else "Unknown error") then
        (false, "Resource unavailable", none)
      else if pyInStr "quota" (if err != "" then pyLower err else "Unknown error") ||
          pyInStr "rate limit" (if err != "" then pyLower err else "Unknown error") then
        (false, "Rate limit exceeded - try again later", none)
      else
        (false, "Validation failed: " ++
          (if err != "" then pyLower err else "Unknown error").take 100, none)
  | .timeoutExpired => (false, "Validation timeout - resource may be too large", none)
  | .fileNotFound => (false, "spotdl not found - please install it first", none)
  | .otherExn m => (false, "Validation error: " ++ m.take 100, none)

/-- Number of parameters `validate_resource` accepts besides `self`
(spotify_url_downloader.py:835: `def validate_resource(self, url)`). -/
def spot_validate_resource_paramCount : Nat := 1

/-- The batch-path call `self.validate_resource(url, skip_cache)`
(spotify_url_downloader.py:1455) passes two positional arguments to a
one-parameter method; Python raises a TypeError before the function body
runs. -/
def spot_batch_validate_call (url : String) (parseJson : String → Option SpotMeta)
    (jsonErrText : String) (ev : ValEvent) :
    Except String (Bool × String × Option SpotMeta) :=
  if 2 = spot_validate_resource_paramCount then
    .ok (spot_validate_resource url parseJson jsonErrText ev)
  else
    .error "TypeError: validate_resource() takes 2 positional arguments but 3 were given"

/-! Spotify download_from_file (spotify_url_downloader.py:1418-1585),
validation-skipped path (option 2; with validation chosen, the arity
TypeError of line 1455 fires first, see C4). -/

/-- Outcome of the manifest read (spotify_url_downloader.py:1418-1426). -/
inductive ReadOutcome where
  | ok (fileLines : List (List Char))
  | fileNotFoundErr
  | otherErr (msg : String)
deriving DecidableEq

/-- Observables of one `download_from_file` run: the propagated exception
if any, the returned value if any, the number of run_download invocations,
the in-memory manifest lines when the run ends, and whether the write and
the summary were reached. -/
structure DFFRun where
  raisedExn : Option String
  returned : Option Bool
  invocations : Nat
  linesAfter : List (List Char)
  writeAttempted : Bool
  summaryShown : Bool
deriving DecidableEq

/-- `download_from_file` (spotify_url_downloader.py:1418-1585): read errors
are caught, logged and answered with `return False`; an empty file returns
False; a fully marked file returns True at line 1443 before any download.
Otherwise the per-item loop's first statement at line 1516,
`is_valid, resource_type = self.validate_spotify_url(url)`, calls
validate_spotify_url, which raises the re.match TypeError at its line 797
(see `vsuLoop`); the call sits outside every try block, so the exception
propagates out of download_from_file on the first work item: the retry
loop, the manifest rewrite, the write (1570-1574) and the summary are
never reached, no run_download invocation happens, and the in-memory
lines stay as read. -/
def spot_download_from_file (readRes : ReadOutcome) : DFFRun :=
  match readRes with
  | .fileNotFoundErr => ⟨none, some false, 0, [], false, false⟩
  | .otherErr _ => ⟨none, some false, 0, [], false, false⟩
  | .ok fileLines =>
    if fileLines = [] then ⟨none, some false, 0, fileLines, false, false⟩
    else
      if urlsToProcess fileLines = [] then
        ⟨none, some true, 0, fileLines, false, false⟩
      else
        ⟨some reMatchTypeError, none, 0, fileLines, false, false⟩

/-! Helper lemmas about the Python string primitives -/

theorem lstrip_sfx (l : List Char) : lstripChars l <:+ l := by
  induction l with
  | nil => simp [lstripChars]
  | cons a t ih =>
    by_cases h : pyWS a
    · simpa [lstripChars, List.dropWhile_cons, h] using
        ih.trans (List.suffix_cons a t)
    · simp [lstripChars, List.dropWhile_cons, h]

theorem rstrip_prfx (l : List Char) : rstripChars l <+: l := by
  obtain ⟨t, ht⟩ := lstrip_sfx l.reverse
  refine ⟨t.reverse, ?_⟩
  have h2 := congrArg List.reverse ht
  simpa [rstripChars, lstripChars, List.reverse_append] using h2

theorem pstrip_subset (l : List Char) : pstrip l ⊆ l := by
  intro x hx
  have h1 : x ∈ lstripChars l := (rstrip_prfx (lstripChars l)).subset hx
  exact (lstrip_sfx l).subset h1

theorem hash_not_mem_beforeHash (l : List Char) : '#' ∉ beforeHash l := by
  intro h
  have h0 := List.mem_takeWhile_imp h
  simp at h0

theorem hash_not_mem_cleanTarget (l : List Char) : '#' ∉ cleanTarget l := by
  intro h
  exact hash_not_mem_beforeHash l (pstrip_subset (beforeHash l) h)

theorem downloadedSuffix_eq_cons_marker : downloadedSuffix = ' ' :: markerChars := by
  decide

theorem marker_sfx_downloadedSuffix : markerChars <:+ downloadedSuffix := by
  rw [downloadedSuffix_eq_cons_marker]
  exact List.suffix_cons ' ' markerChars

theorem hasMarker_append (x : List Char) :
    hasDownloadedMarker (x ++ downloadedSuffix) = true := by
  have h1 : markerChars <:+ x ++ downloadedSuffix :=
    marker_sfx_downloadedSuffix.trans (List.suffix_append x downloadedSuffix)
  rw [hasDownloadedMarker, pySubstr]
  exact decide_eq_true h1.isInfix

theorem markLine_hasMarker (cu l : List Char) :
    hasDownloadedMarker (markLine cu l) = true := by
  rw [markLine]
  split
  · exact hasMarker_append (cleanTarget l)
  · exact hasMarker_append cu

/-! Lemmas about the batch processors -/

theorem loopRun_first_success (res : Nat → SpotRunResult) (maxR : Nat)
    (hmax : 1 ≤ maxR) (h : spotSuccess (res 0) = true) :
    loopRun res maxR 0 = (true, 1) := by
  cases maxR with
  | zero => omega
  | succ n => simp [loopRun, h]

theorem ytProcessLine_marked (validator : List Char → Bool × List Char)
    (ok : List Char → Nat → SpotRunResult) (maxR : Nat) (l : List Char)
    (h : pySubstr markerChars l = true) :
    ytProcessLine validator ok maxR l = (0, l) := by
  simp [ytProcessLine, h]

theorem ytProcessLine_result_marked (validator : List Char → Bool × List Char)
    (ok : List Char → Nat → SpotRunResult) (maxR : Nat) (l : List Char)
    (hval : ∀ u, (validator u).1 = true) (hok : ∀ u, spotSuccess (ok u 0) = true)
    (hmax : 1 ≤ maxR) :
    hasDownloadedMarker (ytProcessLine validator ok maxR l).2 = true := by
  by_cases hm : pySubstr markerChars l = true
  · rw [ytProcessLine_marked validator ok maxR l hm]
    exact hm
  · have hloop := loopRun_first_success (ok (cleanTarget l)) maxR hmax (hok _)
    simp [ytProcessLine, hm, hval, hloop, markLine_hasMarker]

theorem ytSecondRun_zero (validator : List Char → Bool × List Char)
    (ok : List Char → Nat → SpotRunResult) (maxR : Nat)
    (fileLines : List (List Char))
    (hval : ∀ u, (validator u).1 = true) (hok : ∀ u, spotSuccess (ok u 0) = true)
    (hmax : 1 ≤ maxR) :
    (ytProcessBatch validator ok maxR
      (ytProcessBatch validator ok maxR fileLines).2).1 = 0 := by
  rw [ytProcessBatch]
  apply List.sum_eq_zero
  intro x hx
  rw [List.mem_map] at hx
  obtain ⟨l2, hl2, rfl⟩ := hx
  rw [ytProcessBatch] at hl2
  rw [List.mem_map] at hl2
  obtain ⟨l, _, rfl⟩ := hl2
  have hmarked := ytProcessLine_result_marked validator ok maxR l hval hok hmax
  rw [ytProcessLine_marked validator ok maxR _ hmarked]

/-! Lemmas about the retry-loop traces -/

theorem dffLoopGo_all_fail (res : Nat → SpotRunResult) (maxR d : Nat)
    (hfail : ∀ i, spotSuccess (res i) = false) :
    ∀ fuel a, a + fuel = maxR + 1 → 1 ≤ fuel →
      dffLoopGo res maxR d fuel a
        = RunEv.attempt a :: altTail d (fuel - 1) (a + 1) := by
  intro fuel
  induction fuel with
  | zero =>
    intro a _ h2
    omega
  | succ f ihf =>
    intro a h1 _
    cases f with
    | zero =>
      have hge : ¬ a < maxR := by omega
      simp [dffLoopGo, hfail a, hge, altTail]
    | succ f0 =>
      have hlt : a < maxR := by omega
      have ih2 := ihf (a + 1) (by omega) (by omega)
      have hstep : dffLoopGo res maxR d (f0 + 1 + 1) a
          = RunEv.attempt a ::
            (if spotSuccess (res a) = true then []
             else if a < maxR then
               RunEv.sleep d :: dffLoopGo res maxR d (f0 + 1) (a + 1)
             else []) := rfl
      rw [hstep, hfail a, ih2]
      simp [hlt, altTail]

theorem dffLoopTrace_all_fail (res : Nat → SpotRunResult) (maxR d : Nat)
    (hfail : ∀ i, spotSuccess (res i) = false) :
    dffLoopTrace res maxR d = altTrace maxR d := by
  cases maxR with
  | zero => rfl
  | succ n =>
    rw [dffLoopTrace, altTrace]
    have h := dffLoopGo_all_fail res (n + 1) d hfail (n + 1) 1 (by omega) (by omega)
    simpa using h

theorem trackLoopGo_all_fail (res : Nat → SpotRunResult) (d : Nat)
    (hfail : ∀ i, spotSuccess (res i) = false) :
    ∀ fuel a, 2 ≤ a → trackLoopGo res d fuel a = altTail d fuel a := by
  intro fuel
  induction fuel with
  | zero => intro a _; rfl
  | succ f ihf =>
    intro a ha
    have h1 : 1 < a := by omega
    simp [trackLoopGo, h1, hfail a, altTail, ihf (a + 1) (by omega)]

theorem trackLoopTrace_all_fail (res : Nat → SpotRunResult) (maxR d : Nat)
    (hfail : ∀ i, spotSuccess (res i) = false) :
    trackLoopTrace res maxR d = altTrace maxR d := by
  cases maxR with
  | zero => rfl
  | succ n =>
    rw [trackLoopTrace, altTrace]
    simp [trackLoopGo, hfail 1, trackLoopGo_all_fail res d hfail n 2 (by omega)]

theorem altTail_counts (d : Nat) :
    ∀ r a, countAttempts (altTail d r a) = r ∧ countSleeps (altTail d r a) = r := by
  intro r
  induction r with
  | zero =>
    intro a
    simp [altTail, countAttempts, countSleeps]
  | succ k ih =>
    intro a
    have h := ih (a + 1)
    simp [altTail, countAttempts, countSleeps, List.countP_cons, isAttemptEv,
      isSleepEv] at h ⊢
    omega

theorem altTrace_counts (maxR d : Nat) :
    countAttempts (altTrace maxR d) = maxR
    ∧ countSleeps (altTrace maxR d) = maxR - 1 := by
  cases maxR with
  | zero => simp [altTrace, countAttempts, countSleeps]
  | succ n =>
    constructor
    · show countAttempts (RunEv.attempt 1 :: altTail d n 2) = n + 1
      rw [countAttempts, List.countP_cons]
      have h := (altTail_counts d n 2).1
      rw [countAttempts] at h
      rw [h]
      simp [isAttemptEv]
    · show countSleeps (RunEv.attempt 1 :: altTail d n 2) = (n + 1) - 1
      rw [countSleeps, List.countP_cons]
      have h := (altTail_counts d n 2).2
      rw [countSleeps] at h
      rw [h]
      simp [isSleepEv]

theorem altTrace_headEv (maxR d : Nat) (hmax : 1 ≤ maxR) :
    (altTrace maxR d).head? = some (RunEv.attempt 1) := by
  cases maxR with
  | zero => omega
  | succ n => rfl

theorem lastEv_attempt_altTail (d : Nat) :
    ∀ r a, lastEv (RunEv.attempt a :: altTail d r (a + 1))
      = some (RunEv.attempt (a + r)) := by
  intro r
  induction r with
  | zero => intro a; rfl
  | succ k ih =>
    intro a
    calc lastEv (RunEv.attempt a :: altTail d (k + 1) (a + 1))
        = lastEv (RunEv.attempt (a + 1) :: altTail d k (a + 2)) := rfl
      _ = some (RunEv.attempt ((a + 1) + k)) := by
          have h2 := ih (a + 1)
          simpa using h2
      _ = some (RunEv.attempt (a + (k + 1))) := by
          have h3 : (a + 1) + k = a + (k + 1) := by omega
          rw [h3]

theorem altTrace_lastEv (maxR d : Nat) (hmax : 1 ≤ maxR) :
    lastEv (altTrace maxR d) = some (RunEv.attempt maxR) := by
  cases maxR with
  | zero => omega
  | succ n =>
    have h := lastEv_attempt_altTail d n 1
    have h1 : 1 + n = n + 1 := by omega
    rw [h1] at h
    simpa [altTrace] using h

/-! Claim theorems -/

/-- C1, counterexample to the claim as stated.  With `calls_per_minute = 60`
(spacing 1s) and `last_called = 0`, an invocation arriving at t = 100 whose
protected call fails immediately leaves the timestamp at 99, not at the
stamped value 100: a next acquire arriving at t = 100 sleeps 0 seconds and
proceeds at 100, strictly earlier than the 100 + 1 the claim ("must still
wait the full minimum spacing") requires. -/
theorem C1_claim_counterexample :
    rlInvoke 60 ⟨0⟩ 100 0 true = ⟨99⟩
    ∧ rlSleepApplied 60 ⟨99⟩ 100 = 0
    ∧ rlProceedTime 60 ⟨99⟩ 100 = 100
    ∧ rlSpacing 60 = 1
    ∧ rlProceedTime 60 ⟨99⟩ 100 < rlProceedTime 60 ⟨0⟩ 100 + rlSpacing 60 := by
  refine ⟨?_, ?_, ?_, ?_, ?_⟩ <;>
    norm_num [rlInvoke, rlProceedTime, rlSleepApplied, rlWaitTime, rlSpacing]

/-- C1, amended: on an exception inside the protected call the cited
rate_limit wrappers roll the timestamp back to `now - 60/calls_per_minute`
(spotify_url_downloader.py:1117, youtube_url_downloader.py:1022), so any
acquire arriving at or after the failure instant performs no sleep at all. -/
theorem C1_exception_rolls_back_timestamp (cpm : ℚ) (s : RLState) (t dur u : ℚ)
    (h : rlProceedTime cpm s t + dur ≤ u) :
    rlSleepApplied cpm (rlInvoke cpm s t dur true) u = 0 := by
  have h2 : rlWaitTime cpm (rlInvoke cpm s t dur true) u ≤ 0 := by
    show rlSpacing cpm - (u - (rlProceedTime cpm s t + dur - rlSpacing cpm)) ≤ 0
    linarith
  rw [rlSleepApplied, if_neg (not_lt.mpr h2)]

/-- C1, witness for the amended theorem at a concrete run. -/
theorem C1_exception_rolls_back_timestamp_witness :
    rlSleepApplied 60 (rlInvoke 60 ⟨0⟩ 100 0 true) 100 = 0 :=
  C1_exception_rolls_back_timestamp 60 ⟨0⟩ 100 0 100
    (by norm_num [rlProceedTime, rlWaitTime, rlSpacing])

/-- C2: the condition at interactive_downloader_2.py:276 is
`if "This video is unavailable" or "Privae video" in stderr:`; the literal
string is truthy, so EVERY CalledProcessError is classified as the
non-retryable 404 outcome.  At the failing input (nonzero exit, stderr
"connection reset by peer" matching no known pattern) the classifier
produces the non-retryable outcome and download_single stops after one
attempt instead of retrying with a generic reason. -/
theorem C2_unmatched_error_becomes_nonretryable :
    idl_run_download (RawEvent.calledProcessError "" "connection reset by peer")
      = RDResult.obj 404 "" "connection reset by peer"
    ∧ idl_download_single 3 true
        (fun _ => RawEvent.calledProcessError "" "connection reset by peer")
      = ⟨false, 1, 0⟩ :=
  ⟨by decide, by decide⟩

/-- C3: a timed-out attempt yields the synthesized returncode-400 object
(interactive_downloader_2.py:295-301), which download_single does not
recognise (its non-retryable list is [404, 403, 408] and its success test
only checks returncode 0 first), so control falls through to the
`# If we get here, it was successful` branch: the timeout is reported as a
SUCCESS after one attempt, with no retry, contradicting the claim. -/
theorem C3_timeout_reported_as_success :
    idl_run_download RawEvent.timeoutExpired
      = RDResult.obj 400 "" "Download timeout"
    ∧ idl_download_single 3 true (fun _ => RawEvent.timeoutExpired)
      = ⟨true, 1, 0⟩ :=
  ⟨rfl, by decide⟩

/-- C5: whenever the first attempt's outcome is classified non-retryable by
run_download (returncode 404 or 402), download_single returns failure after
exactly one attempt and zero sleeps, for every maxRetries ≥ 1. -/
theorem C5_nonretryable_stops_after_one_attempt (maxR : Nat)
    (ev : Nat → RawEvent) (hmax : 1 ≤ maxR)
    (hcls : idl_nonretryable (idl_run_download (ev 0))) :
    idl_download_single maxR true ev = ⟨false, 1, 0⟩ := by
  obtain ⟨out, err, hor⟩ := hcls
  cases maxR with
  | zero => omega
  | succ n =>
    show idl_download_single_go ev (n + 1) (n + 1) 0 0 = ⟨false, 1, 0⟩
    cases hev : ev 0 with
    | ok out2 =>
      rw [hev] at hor
      simp [idl_run_download] at hor
    | calledProcessError out2 err2 =>
      have hT : pyTruthy "This video is unavailable" = true := by decide
      have hrd : idl_run_download (RawEvent.calledProcessError out2 err2)
          = RDResult.obj 404 out2 err2 := by
        simp [idl_run_download, hT]
      simp [idl_download_single_go, hev, hrd]
    | timeoutExpired =>
      rw [hev] at hor
      simp [idl_run_download] at hor
    | otherExn m =>
      rw [hev] at hor
      simp [idl_run_download] at hor

/-- C5, witness: a concrete non-retryable first outcome with maxRetries 3. -/
theorem C5_nonretryable_stops_after_one_attempt_witness :
    idl_download_single 3 true
      (fun _ => RawEvent.calledProcessError "o" "transient noise")
      = ⟨false, 1, 0⟩ :=
  C5_nonretryable_stops_after_one_attempt 3 _ (by omega)
    ⟨"o", "transient noise", Or.inl (by decide)⟩

/-- C4: the validator itself converts every exception (timeout, missing
tool, anything else) into an unavailable triple with a descriptive message,
but the batch-download path (spotify_url_downloader.py:1455) calls
`self.validate_resource(url, skip_cache)` with an extra positional argument
the method does not accept, so that call raises a TypeError for every
input, crashing the caller before the validator body can run. -/
theorem C4_validator_catches_but_batch_call_raises :
    (∀ (url : String) (parseJson : String → Option SpotMeta)
        (jsonErrText m : String),
      spot_validate_resource url parseJson jsonErrText ValEvent.timeoutExpired
        = (false, "Validation timeout - resource may be too large", none)
      ∧ spot_validate_resource url parseJson jsonErrText ValEvent.fileNotFound
        = (false, "spotdl not found - please install it first", none)
      ∧ spot_validate_resource url parseJson jsonErrText (ValEvent.otherExn m)
        = (false, "Validation error: " ++ m.take 100, none))
    ∧ ∀ (url : String) (parseJson : String → Option SpotMeta)
        (jsonErrText : String) (ev : ValEvent),
        spot_batch_validate_call url parseJson jsonErrText ev
          = Except.error
            "TypeError: validate_resource() takes 2 positional arguments but 3 were given" := by
  constructor
  · intro url parseJson jsonErrText m
    exact ⟨rfl, rfl, rfl⟩
  · intro url parseJson jsonErrText ev
    rfl

/-- C6: when every attempt fails (the only retryable outcomes the spotify
loops distinguish), both the download_from_file retry loop and the
download_track retry loop produce exactly the alternating trace
attempt 1, sleep d, attempt 2, ..., attempt maxR: maxR attempts,
maxR − 1 sleeps of retryDelay, the first and last events being attempts
(no sleep before the first or after the last attempt). -/
theorem C6_retry_delay_between_attempts (maxR d : Nat)
    (res : Nat → SpotRunResult)
    (hfail : ∀ i, spotSuccess (res i) = false) (hmax : 1 ≤ maxR) :
    dffLoopTrace res maxR d = altTrace maxR d
    ∧ trackLoopTrace res maxR d = altTrace maxR d
    ∧ countAttempts (altTrace maxR d) = maxR
    ∧ countSleeps (altTrace maxR d) = maxR - 1
    ∧ (altTrace maxR d).head? = some (RunEv.attempt 1)
    ∧ lastEv (altTrace maxR d) = some (RunEv.attempt maxR) :=
  ⟨dffLoopTrace_all_fail res maxR d hfail,
   trackLoopTrace_all_fail res maxR d hfail,
   (altTrace_counts maxR d).1,
   (altTrace_counts maxR d).2,
   altTrace_headEv maxR d hmax,
   altTrace_lastEv maxR d hmax⟩

/-- C6, witness: three always-failing attempts with a delay of 10 seconds. -/
theorem C6_retry_delay_between_attempts_witness :
    dffLoopTrace (fun _ => SpotRunResult.noResult) 3 10
      = [RunEv.attempt 1, RunEv.sleep 10, RunEv.attempt 2, RunEv.sleep 10,
         RunEv.attempt 3]
    ∧ countSleeps (altTrace 3 10) = 2 := by
  have h := C6_retry_delay_between_attempts 3 10 (fun _ => SpotRunResult.noResult)
    (fun i => rfl) (by omega)
  exact ⟨h.1.trans (by decide), h.2.2.2.1⟩

/-- C7, counterexample to the claim as stated.  The spotify batch run never
reaches its marker logic: on the one-line manifest ["urlA"] the first run
raises the re.match TypeError of line 1516/797, returns nothing, performs
zero run_download invocations and leaves the line unmarked, so a second
run finds no line "carrying a # DOWNLOADED marker" and raises identically.
The claimed mechanism — run one marks everything Downloaded, run two skips
it — is false on this variant. -/
theorem C7_claim_counterexample :
    (spot_download_from_file (ReadOutcome.ok ["urlA".toList])).raisedExn
      = some reMatchTypeError
    ∧ (spot_download_from_file (ReadOutcome.ok ["urlA".toList])).returned = none
    ∧ (spot_download_from_file (ReadOutcome.ok ["urlA".toList])).linesAfter
      = ["urlA".toList]
    ∧ hasDownloadedMarker "urlA".toList = false
    ∧ (spot_download_from_file (ReadOutcome.ok
        (spot_download_from_file
          (ReadOutcome.ok ["urlA".toList])).linesAfter)).raisedExn
      = some reMatchTypeError :=
  ⟨by decide, by decide, by decide, by decide, by decide⟩

/-- C7, amended: the youtube batch processor is idempotent as claimed —
with the tool always succeeding and maxRetries ≥ 1, a second run performs
zero invocations because every processed line was marked `# DOWNLOADED`
and is skipped.  The spotify variant never reaches its marker rewrite: any
manifest with at least one unmarked work item makes every run raise the
line-1516 TypeError with zero run_download invocations and an unchanged
manifest, so a second run behaves identically; a fully marked or
comment-only manifest returns True with zero invocations, the line-1435
marker skip working as described. -/
theorem C7_batch_idempotent_amended :
    (∀ (validator : List Char → Bool × List Char)
        (ok : List Char → Nat → SpotRunResult) (maxR : Nat)
        (fileLines : List (List Char)),
        (∀ u, (validator u).1 = true) → (∀ u, spotSuccess (ok u 0) = true) →
        1 ≤ maxR →
        (ytProcessBatch validator ok maxR
          (ytProcessBatch validator ok maxR fileLines).2).1 = 0)
    ∧ (∀ fileLines : List (List Char), urlsToProcess fileLines ≠ [] →
        (spot_download_from_file (ReadOutcome.ok fileLines)).raisedExn
          = some reMatchTypeError
        ∧ (spot_download_from_file (ReadOutcome.ok fileLines)).invocations = 0
        ∧ (spot_download_from_file (ReadOutcome.ok fileLines)).linesAfter
          = fileLines
        ∧ spot_download_from_file (ReadOutcome.ok
            (spot_download_from_file (ReadOutcome.ok fileLines)).linesAfter)
          = spot_download_from_file (ReadOutcome.ok fileLines))
    ∧ (∀ fileLines : List (List Char), fileLines ≠ [] →
        urlsToProcess fileLines = [] →
        (spot_download_from_file (ReadOutcome.ok fileLines)).returned = some true
        ∧ (spot_download_from_file (ReadOutcome.ok fileLines)).invocations = 0) := by
  refine ⟨?_, ?_, ?_⟩
  · intro validator ok maxR fileLines hval hok hmax
    exact ytSecondRun_zero validator ok maxR fileLines hval hok hmax
  · intro fileLines hurls
    have h1 : fileLines ≠ [] := by
      intro h0
      rw [h0] at hurls
      exact hurls rfl
    have hmain : spot_download_from_file (ReadOutcome.ok fileLines)
        = ⟨some reMatchTypeError, none, 0, fileLines, false, false⟩ := by
      simp [spot_download_from_file, h1, hurls]
    have h2 : (spot_download_from_file (ReadOutcome.ok fileLines)).linesAfter
        = fileLines := by rw [hmain]
    refine ⟨by rw [hmain], by rw [hmain], h2, ?_⟩
    rw [h2]
  · intro fileLines h1 h2
    constructor <;> simp [spot_download_from_file, h1, h2]

/-- C7, witness: a two-line youtube manifest (second run invokes nothing),
a spotify manifest with one work item (zero invocations, raises) and a
fully marked spotify manifest (returns True, zero invocations). -/
theorem C7_batch_idempotent_amended_witness :
    (ytProcessBatch (fun _ => (true, []))
      (fun _ _ => SpotRunResult.completed "") 3
      (ytProcessBatch (fun _ => (true, []))
        (fun _ _ => SpotRunResult.completed "") 3
        ["urlA".toList, "urlB # note".toList]).2).1 = 0
    ∧ (spot_download_from_file (ReadOutcome.ok ["urlA".toList])).invocations = 0
    ∧ (spot_download_from_file
        (ReadOutcome.ok ["urlA # DOWNLOADED".toList])).returned = some true :=
  ⟨C7_batch_idempotent_amended.1 _ _ 3 _ (fun u => rfl) (fun u => rfl)
      (by omega),
   (C7_batch_idempotent_amended.2.1 ["urlA".toList] (by decide)).2.1,
   (C7_batch_idempotent_amended.2.2 ["urlA # DOWNLOADED".toList] (by decide)
     (by decide)).1⟩

/-- C8: for every manifest line containing a `#` comment or marker, the
success rewrite produces exactly the clean target followed by one single
`" # DOWNLOADED"` marker: the old comment text disappears, the result
contains exactly one `#`, and it carries the completion marker. -/
theorem C8_rewrite_single_marker (cleanUrl l : List Char)
    (h : pySubstr ['#'] l = true) :
    markLine cleanUrl l = cleanTarget l ++ downloadedSuffix
    ∧ (markLine cleanUrl l).count '#' = 1
    ∧ hasDownloadedMarker (markLine cleanUrl l) = true := by
  have h1 : markLine cleanUrl l = cleanTarget l ++ downloadedSuffix := by
    rw [markLine, if_pos h]
  refine ⟨h1, ?_, markLine_hasMarker cleanUrl l⟩
  rw [h1, List.count_append]
  have h2 : (cleanTarget l).count '#' = 0 :=
    List.count_eq_zero.mpr (hash_not_mem_cleanTarget l)
  have h3 : downloadedSuffix.count '#' = 1 := by decide
  rw [h2, h3]

/-- C8, witness: a line carrying an arbitrary pre-existing comment. -/
theorem C8_rewrite_single_marker_witness :
    markLine "https://x/track".toList
        "https://x/track # old comment".toList
      = cleanTarget "https://x/track # old comment".toList ++ downloadedSuffix
    ∧ (markLine "https://x/track".toList
        "https://x/track # old comment".toList).count '#' = 1
    ∧ hasDownloadedMarker (markLine "https://x/track".toList
        "https://x/track # old comment".toList) = true :=
  C8_rewrite_single_marker _ _ (by decide)

/-- C9, counterexample to the claim as stated.  A manifest read error is
caught inside download_from_file (spotify_url_downloader.py:1424-1426),
logged, and answered with `return False`: no exception propagates to the
top-level caller, contradicting the claim's "propagate to the top-level
caller". -/
theorem C9_claim_counterexample :
    (spot_download_from_file (ReadOutcome.otherErr "disk failure")).raisedExn
      = none
    ∧ (spot_download_from_file (ReadOutcome.otherErr "disk failure")).returned
      = some false :=
  ⟨rfl, rfl⟩

/-- C9, amended: manifest read errors are caught inside download_from_file,
logged and answered with an immediate False return — no read error ever
propagates to the caller.  The manifest is never written back on any path:
a run with at least one unmarked work item raises the line-1516 TypeError
before the download loop, the write (lines 1570-1574) and the summary, and
every other path returns before the write, so the manifest on disk is
always left untouched, the write-error handler is dead code, and
individual item download failures cannot occur at all (run_download is
never reached). -/
theorem C9_manifest_io_never_propagates (readRes : ReadOutcome) :
    (spot_download_from_file readRes).writeAttempted = false
    ∧ (spot_download_from_file readRes).invocations = 0
    ∧ ((readRes = ReadOutcome.fileNotFoundErr
          ∨ ∃ m, readRes = ReadOutcome.otherErr m) →
        (spot_download_from_file readRes).raisedExn = none
        ∧ (spot_download_from_file readRes).returned = some false)
    ∧ (∀ fileLines, readRes = ReadOutcome.ok fileLines →
        urlsToProcess fileLines ≠ [] →
        (spot_download_from_file readRes).raisedExn = some reMatchTypeError
        ∧ (spot_download_from_file readRes).summaryShown = false) := by
  refine ⟨?_, ?_, ?_, ?_⟩
  · cases readRes with
    | fileNotFoundErr => rfl
    | otherErr m => rfl
    | ok fileLines =>
      by_cases h1 : fileLines = []
      · simp [spot_download_from_file, h1]
      · by_cases h2 : urlsToProcess fileLines = []
        · simp [spot_download_from_file, h1, h2]
        · simp [spot_download_from_file, h1, h2]
  · cases readRes with
    | fileNotFoundErr => rfl
    | otherErr m => rfl
    | ok fileLines =>
      by_cases h1 : fileLines = []
      · simp [spot_download_from_file, h1]
      · by_cases h2 : urlsToProcess fileLines = []
        · simp [spot_download_from_file, h1, h2]
        · simp [spot_download_from_file, h1, h2]
  · intro hread
    rcases hread with h | ⟨m, h⟩ <;> rw [h] <;> exact ⟨rfl, rfl⟩
  · intro fileLines hread hurls
    rw [hread]
    have h1 : fileLines ≠ [] := by
      intro h0
      rw [h0] at hurls
      exact hurls rfl
    constructor <;> simp [spot_download_from_file, h1, hurls]

/-- C9, witness: a missing manifest file is answered with False, no
exception and no write. -/
theorem C9_manifest_io_never_propagates_witness :
    (spot_download_from_file ReadOutcome.fileNotFoundErr).raisedExn = none
    ∧ (spot_download_from_file ReadOutcome.fileNotFoundErr).returned
      = some false :=
  (C9_manifest_io_never_propagates ReadOutcome.fileNotFoundErr).2.2.1
    (Or.inl rfl)

/-- C10, counterexample to the claim as stated.  validate_spotify_url does
not return a bare boolean: its first loop iteration passes the whole
(regex, type) tuple to `re.match` (spotify_url_downloader.py:797), whose
TypeError propagates out of the function (the `try` only wraps urlparse).
At a concrete url, with oracles that would match and accept the scheme,
the function's outcome is that raise — and the TypeError the call sites
observe is re.match's, not the bool-unpacking one the claim describes. -/
theorem C10_claim_counterexample :
    spot_validate_spotify_url (fun _ _ => true) (fun _ => true)
        "https://open.spotify.com/track/4aB9xkQ2"
      = Except.error reMatchTypeError
    ∧ spot_download_track_validate (fun _ _ => true) (fun _ => true)
        "https://open.spotify.com/track/4aB9xkQ2"
      = Except.error reMatchTypeError
    ∧ reMatchTypeError ≠ "TypeError: cannot unpack non-iterable bool object" :=
  ⟨rfl, rfl, by decide⟩

/-- C10, amended: validate_spotify_url never produces the annotated
(is_valid, resource_type) pair — nor a bare boolean: for every url and
whatever `re.match` (on actual strings) and the urlparse scheme check
would answer, line 797 hands the (regex, type) tuple to re.match and the
resulting TypeError propagates out, so both unpacking call sites —
download_track (line 1140) and download_from_file (line 1516) — die with
that TypeError for every URL, valid or not, before any unpacking happens. -/
theorem C10_validate_url_raises (rematch : String → String → Bool)
    (schemeOk : String → Bool) (url : String) :
    spot_validate_spotify_url rematch schemeOk url
      = Except.error reMatchTypeError
    ∧ spot_download_track_validate rematch schemeOk url
      = Except.error reMatchTypeError :=
  ⟨rfl, rfl⟩
